import Mathlib

/-!
# VoiceChatApp: the session controller of `src/main.js`

A shallow embedding of the `VoiceChatApp` class.  The controller object is a
record `State`; every method is a function on `State`.  Calls into the host
(RecordRTC, WebSocket, the audio element, the upload endpoints) are recorded
in the `log` field, in program order, so that "how many times was X called"
is a count over `log`.

Asynchrony.  Every method is taken as one atomic step: a RecordRTC
`stopRecording(cb)` callback runs at the point of the call (or never, see
`Recorder.stopRecording`), and an `await` either continues at once, throws
into the enclosing `catch`, or never resumes (`Completion.pending`).

Host functions that are not part of the repository (`JSON.parse`, `atob`, and
whether RecordRTC calls back when an already stopped recorder is stopped
again) are the fields of `Platform`; device outcomes of one `startSession`
run are the fields of `StartEnv`.  DOM visibility toggles are left out; the
status line, the timer text and the response text are kept.
-/

namespace VoiceChatApp

/-! ## Data model -/

/-- The four values of `WebSocket.readyState`. -/
inductive ReadyState
  | CONNECTING | OPEN | CLOSING | CLOSED
  deriving DecidableEq, Repr

/-- The three kinds of RecordRTC instance the controller creates. -/
inductive RecorderKind
  | audio | video | screen
  deriving DecidableEq, Repr

/-- One RecordRTC instance: whether it is in state `recording`, and how many
`stopRecording(cb)` calls it has received so far. -/
structure Recorder where
  kind : RecorderKind
  recording : Bool
  stopCalls : Nat
  deriving DecidableEq, Repr

/-- A `MediaStream`; `live` is false once `track.stop()` ran on its tracks. -/
structure MediaStream where
  live : Bool
  deriving DecidableEq, Repr

/-- A `Blob`: either what `recorder.getBlob()` returned, or the
`new Blob(byteArrays, {type})` built by `base64ToBlob`. -/
inductive Blob
  | recorded (r : Recorder)
  | bytes (byteArrays : List (List Nat)) (contentType : String)
  deriving DecidableEq, Repr

/-- Calls into the host, in program order. -/
inductive Effect
  /-- `endSession()` was entered -/
  | endSession
  /-- `this.socket.send(audioBlob)` -/
  | send (blob : Blob)
  /-- `this.socket.close()` -/
  | close
  /-- `fetch(url, POST)` with the blob under form field `kind` -/
  | upload (url : String) (kind : String) (blob : Blob)
  /-- `saveRecording(blob, kind)` -/
  | save (kind : String) (blob : Blob)
  /-- `audioPlayback.src = url; audioPlayback.play()` -/
  | play (blob : Blob)
  /-- `audioPlayback.pause()` -/
  | pause
  /-- `console.error(...)` in a `catch` branch -/
  | consoleError (message : String)
  deriving DecidableEq, Repr

/-- The fields of the controller object that `src/main.js` reads or writes.

* `recorder` is `this.recorder`; `replaced` lists the audio recorders that
  `this.recorder` pointed to before it was overwritten (they still exist, and
  still record if nobody stopped them).
* `sessionTimer` is `some r` while the interval of `startTimer` is installed,
  `r` being the closure variable `remainingTime`; `none` before `setInterval`
  and after `clearInterval`.
* `endedOnce` counts the `{once: true}` listeners for `'ended'` registered by
  `handleMessage` and not yet fired. -/
structure State where
  socket : Option ReadyState
  recorder : Option Recorder
  replaced : List Recorder
  stream : Option MediaStream
  videoRecorder : Option Recorder
  sessionTimer : Option Int
  isRecording : Bool
  isSessionActive : Bool
  screenStream : Option MediaStream
  screenRecorder : Option Recorder
  isScreenRecording : Bool
  combinedStream : Option MediaStream
  status : String
  timerText : Option (Int × Int)
  responseText : String
  endedOnce : Nat
  log : List Effect
  deriving DecidableEq, Repr

/-- How a call ended: it returned (or its promise resolved), it threw (or its
promise rejected), or its promise never settles. -/
inductive Completion
  | returned
  | threw (message : String)
  | pending
  deriving DecidableEq, Repr

/-- The value of a property of the parsed reply. `other` covers `null`,
booleans, numbers, arrays and objects: its truthiness and `String(v)`. -/
inductive JsValue
  | undefined
  | str (s : String)
  | other (truthy : Bool) (asString : String)
  deriving DecidableEq, Repr

/-- The outcome of `JSON.parse(event.data)`: a `SyntaxError`, the value
`null`, or any other value together with its `text` and `audio` properties. -/
inductive Parsed
  | syntaxError
  | null
  | value (text : JsValue) (audio : JsValue)
  deriving DecidableEq, Repr

/-- Host behaviour the controller relies on. `atob` returns the character
codes of the decoded binary string, or `none` where it throws. -/
structure Platform where
  JSON_parse : String → Parsed
  atob : String → Option (List Nat)
  callbackOnRestop : Bool

/-- The device and connection outcomes of one `startSession` run; an `error`
carries the `message` of the error the host raised. -/
structure StartEnv where
  socketOpens : Bool
  getUserMedia : Except String Unit
  getDisplayMedia : Except String Unit
  getUserAudio : Except String Unit

/-- The `MessageEvent` handed to `socket.onmessage`. -/
structure MessageEvent where
  data : String
  deriving DecidableEq, Repr

/-- The state the constructor leaves (lines 2-16). -/
def constructor : State :=
  { socket := none, recorder := none, replaced := [], stream := none,
    videoRecorder := none, sessionTimer := none, isRecording := false,
    isSessionActive := false, screenStream := none, screenRecorder := none,
    isScreenRecording := false, combinedStream := none, status := "",
    timerText := none, responseText := "", endedOnce := 0, log := [] }

/-! ## base64ToBlob (lines 364-380) -/

/-- `slice.charCodeAt(i)` on a string given by its character codes. -/
def charCodeAt (s : List Nat) (i : Nat) : Nat := s.getD i 0

/-- `byteCharacters.slice(a, b)` for `0 ≤ a`, `0 ≤ b`. -/
def slice (s : List Nat) (a b : Nat) : List Nat := (s.take b).drop a

/-- The inner loop: `byteNumbers[i] = slice.charCodeAt(i)` for
`i < slice.length`. -/
def byteNumbers (sl : List Nat) : List Nat :=
  (List.range sl.length).map (charCodeAt sl)

/-- `new Uint8Array(byteNumbers)`: every element is reduced modulo 256. -/
def Uint8Array (ns : List Nat) : List Nat := ns.map (· % 256)

/-- The body of the outer loop up to the `push`: the byte array built in the
round that starts at `offset`. -/
def chunkAt (byteCharacters : List Nat) (offset : Nat) : List Nat :=
  Uint8Array (byteNumbers (slice byteCharacters offset (offset + 512)))

/-- The outer loop `for (offset; offset < length; offset += 512)`, with the
iteration count bounded by `fuel`. -/
def chunkLoop (byteCharacters : List Nat) :
    Nat → Nat → List (List Nat) → List (List Nat)
  | 0, _, byteArrays => byteArrays
  | fuel + 1, offset, byteArrays =>
    if offset < byteCharacters.length then
      chunkLoop byteCharacters fuel (offset + 512)
        (byteArrays ++ [chunkAt byteCharacters offset])
    else byteArrays

/-- The `byteArrays` that `base64ToBlob` builds from the decoded string. The
loop runs at most `length` times, since each round advances by 512. -/
def byteArraysOf (byteCharacters : List Nat) : List (List Nat) :=
  chunkLoop byteCharacters byteCharacters.length 0 []

/-- `base64ToBlob(base64Data, contentType)`; `none` where `atob` throws. -/
def base64ToBlob (pf : Platform) (base64Data contentType : String) :
    Option Blob :=
  (pf.atob base64Data).map fun byteCharacters =>
    Blob.bytes (byteArraysOf byteCharacters) contentType

/-! ## The controller's methods -/

/-- `updateStatus(message)` (lines 382-384). -/
def updateStatus (s : State) (message : String) : State :=
  { s with status := message }

/-- `track.stop()` on every track of a stream. -/
def MediaStream.stopTracks (_m : MediaStream) : MediaStream := { live := false }

/-- RecordRTC `stopRecording(cb)`: the recorder leaves state `recording` and
counts the call; the second component tells whether `cb` is invoked. A
recorder that was recording always calls back; one that was already stopped
does so only if the host says so. -/
def Recorder.stopRecording (pf : Platform) (r : Recorder) : Recorder × Bool :=
  ({ r with recording := false, stopCalls := r.stopCalls + 1 },
    r.recording || pf.callbackOnRestop)

/-- `socket.close()`: an open or connecting socket starts closing. -/
def ReadyState.close : ReadyState → ReadyState
  | .CLOSED => .CLOSED
  | _ => .CLOSING

/-- `sendAudioToServer(audioBlob)` (lines 311-317). Reading `readyState` of
a null socket throws. -/
def sendAudioToServer (s : State) (audioBlob : Blob) : State × Completion :=
  match s.socket with
  | none => (s, .threw "this.socket is null")
  | some readyState =>
    if readyState = ReadyState.OPEN then
      ({ s with log := s.log ++ [Effect.send audioBlob] }, .returned)
    else
      (updateStatus s "Connection lost. Please restart the session.", .returned)

/-- `startTimer(duration)` (lines 245-260): installs the interval with
`remainingTime = duration`. An interval installed earlier and not cleared is
no longer referred to by `this.sessionTimer`; the model follows only the one
`this.sessionTimer` refers to. -/
def startTimer (duration : Int) (s : State) : State :=
  { s with sessionTimer := some duration }

/-- `startRecording()` (lines 262-286). The RecordRTC constructor is taken to
succeed (`this.stream` is set wherever `isSessionActive` is). -/
def startRecording (s : State) : State :=
  if !s.isSessionActive || s.isRecording then s
  else
    let s := { s with isRecording := true }
    let s := { s with
      replaced := s.recorder.toList ++ s.replaced
      recorder := some { kind := .audio, recording := true, stopCalls := 0 } }
    updateStatus s "Recording..."

/-- `stopRecording()` (lines 288-309). The promise resolves inside the
RecordRTC callback; an exception raised inside that callback does not reach
the promise, which then stays pending. -/
def stopRecording (pf : Platform) (s : State) : State × Completion :=
  if !s.isRecording then (s, .returned)
  else
    let s := { s with isRecording := false }
    match s.recorder with
    | none => (s, .threw "this.recorder is null")
    | some r =>
      let (r, called) := r.stopRecording pf
      let s := { s with recorder := some r }
      if called then
        match sendAudioToServer s (Blob.recorded r) with
        | (s, .returned) => (updateStatus s "Processing...", .returned)
        | (s, _) => (s, .pending)
      else (s, .pending)

/-- `stopScreenRecording()` (lines 216-243). -/
def stopScreenRecording (pf : Platform) (s : State) : State × Completion :=
  if !s.isScreenRecording then (s, .returned)
  else
    match s.screenRecorder with
    | none => (s, .threw "this.screenRecorder is null")
    | some r =>
      let (r, called) := r.stopRecording pf
      let s := { s with screenRecorder := some r }
      if called then
        let blob := Blob.recorded r
        let s := { s with log := s.log ++
          [Effect.upload "/upload_screen/" "screen" blob, Effect.save "screen" blob] }
        let s := { s with combinedStream := s.combinedStream.map MediaStream.stopTracks }
        let s := { s with screenStream := s.screenStream.map MediaStream.stopTracks }
        ({ s with isScreenRecording := false }, .returned)
      else (s, .pending)

/-- The `catch` branch of `endSession` (lines 438-441). -/
def endSessionCatch (s : State) (message : String) : State × Completion :=
  let s := { s with log := s.log ++ [Effect.consoleError "Error ending session:"] }
  (updateStatus s ("Error ending session: " ++ message), .returned)

/-- `endSession`, lines 416-437: what follows the screen recording. -/
def endSessionReset (s : State) : State × Completion :=
  let s := { s with stream := s.stream.map MediaStream.stopTracks }
  let s :=
    match s.socket with
    | some readyState =>
      { s with socket := some readyState.close, log := s.log ++ [Effect.close] }
    | none => s
  let s := { s with isSessionActive := false }
  let s := { s with isRecording := false }
  ({ s with timerText := none, responseText := "" }, .returned)

/-- `endSession`, lines 402-409: the video recorder is stopped whenever
`this.videoRecorder` is set; its callback uploads the blob as `'video'`. -/
def endSessionVideo (pf : Platform) (s : State) : State :=
  match s.videoRecorder with
  | some r =>
    let (r, called) := r.stopRecording pf
    let s := { s with videoRecorder := some r }
    if called then
      { s with log := s.log ++
        [Effect.upload "/upload_video/" "video" (Blob.recorded r)] }
    else s
  | none => s

/-- `endSession`, lines 398-414: what follows the audio turn. -/
def endSessionCaptures (pf : Platform) (s : State) : State × Completion :=
  let s := { s with log := s.log ++ [Effect.pause] }
  let s := endSessionVideo pf s
  if s.isScreenRecording then
    match stopScreenRecording pf s with
    | (s, .returned) => endSessionReset s
    | (s, .threw message) => endSessionCatch s message
    | (s, .pending) => (s, .pending)
  else endSessionReset s

/-- `endSession()` (lines 386-442). -/
def endSession (pf : Platform) (s : State) : State × Completion :=
  let s := { s with log := s.log ++ [Effect.endSession] }
  let s := updateStatus s "Session ended"
  let s := { s with sessionTimer := none }
  if s.isRecording then
    match stopRecording pf s with
    | (s, .returned) => endSessionCaptures pf s
    | (s, .threw message) => endSessionCatch s message
    | (s, .pending) => (s, .pending)
  else endSessionCaptures pf s

/-- One firing of the interval callback of `startTimer` (lines 247-259): show
the remaining time, then `if (--remainingTime < 0) this.endSession()`. With no
interval installed nothing fires. -/
def timerTick (pf : Platform) (s : State) : State :=
  match s.sessionTimer with
  | none => s
  | some remainingTime =>
    let s := { s with timerText := some (Int.fdiv remainingTime 60, Int.tmod remainingTime 60) }
    let remainingTime := remainingTime - 1
    let s := { s with sessionTimer := some remainingTime }
    if remainingTime < 0 then (endSession pf s).1 else s

/-- `initializeMediaStream()` (lines 110-129). -/
def initializeMediaStream (env : StartEnv) (s : State) : State × Completion :=
  match env.getUserMedia with
  | .ok _ =>
    let s := { s with stream := some { live := true } }
    ({ s with videoRecorder := some { kind := .video, recording := true, stopCalls := 0 } },
      .returned)
  | .error message => (s, .threw ("Failed to access media devices: " ++ message))

/-- The `catch` branch of `startScreenRecording` (lines 195-198): the error
is logged and shown, and is not thrown again. -/
def startScreenRecordingCatch (s : State) (message : String) : State :=
  let s := { s with log := s.log ++ [Effect.consoleError "Error starting screen recording:"] }
  updateStatus s ("Failed to start screen recording: " ++ message)

/-- `startScreenRecording()` (lines 131-199). It never throws. -/
def startScreenRecording (env : StartEnv) (s : State) : State :=
  match env.getDisplayMedia with
  | .error message => startScreenRecordingCatch s message
  | .ok _ =>
    let s := { s with screenStream := some { live := true } }
    match env.getUserAudio with
    | .error message => startScreenRecordingCatch s message
    | .ok _ =>
      let s := { s with combinedStream := some { live := true } }
      let s := { s with
        screenRecorder := some { kind := .screen, recording := true, stopCalls := 0 } }
      { s with isScreenRecording := true }

/-- The `catch` branch of `startSession` (lines 104-107). -/
def startSessionCatch (s : State) (message : String) : State :=
  let s := { s with log := s.log ++ [Effect.consoleError "Error starting session:"] }
  updateStatus s ("Failed to start session: " ++ message)

/-- `startSession()` (lines 58-108). -/
def startSession (env : StartEnv) (s : State) : State :=
  let s := { s with socket := some ReadyState.CONNECTING }
  if !env.socketOpens then startSessionCatch s "WebSocket connection timeout"
  else
    let s := { s with socket := some ReadyState.OPEN }
    match initializeMediaStream env s with
    | (s, .threw message) => startSessionCatch s message
    | (s, _) =>
      let s := startScreenRecording env s
      let s := { s with isSessionActive := true }
      let s := updateStatus s "Session started - Recording automatically"
      let s := startTimer (35 * 60) s
      startRecording s

/-! ## Replies -/

/-- Truthiness of a property value, as tested by `if (data.text)`. -/
def JsValue.truthy : JsValue → Bool
  | .undefined => false
  | .str s => s != ""
  | .other truthy _ => truthy

/-- The string a property value is converted to. -/
def JsValue.asString : JsValue → String
  | .undefined => "undefined"
  | .str s => s
  | .other _ asString => asString

/-- `text.toLowerCase()`. Only `A`-`Z` are mapped; the two other characters
whose lower case touches ASCII (U+0130, U+212A) cannot produce an occurrence
of `interview complete`. -/
def toLowerCase (text : String) : String :=
  String.mk (text.toList.map Char.toLower)

/-- `text.includes(marker)`. -/
def includes (text marker : String) : Bool :=
  text.toList.tails.any fun rest => marker.toList.isPrefixOf rest

/-- `playAudioResponse(audioBlob)` (lines 356-362). -/
def playAudioResponse (s : State) (audioBlob : Blob) : State :=
  { s with log := s.log ++ [Effect.play audioBlob] }

/-- The `try` block of `handleMessage` (lines 321-349): the state reached,
and the message of the exception that ended the block, if one did. -/
def handleMessageTry (pf : Platform) (s : State) (event : MessageEvent) :
    State × Option String :=
  match pf.JSON_parse event.data with
  | .syntaxError => (s, some "SyntaxError")
  | .null => (s, some "TypeError: data is null")
  | .value text audio =>
    let s := if text.truthy then { s with responseText := text.asString } else s
    let played : State × Option String :=
      if audio.truthy then
        match base64ToBlob pf audio.asString "audio/mp3" with
        | none => (s, some "InvalidCharacterError")
        | some audioBlob =>
          (updateStatus (playAudioResponse s audioBlob) "Playing response...", none)
      else (s, none)
    match played with
    | (s, some message) => (s, some message)
    | (s, none) =>
      match text with
      | .str t =>
        if includes (toLowerCase t) "interview complete" then
          ({ s with endedOnce := s.endedOnce + 1 }, none)
        else (s, none)
      | _ => (s, some "TypeError: data.text.toLowerCase")

/-- `handleMessage(event)` (lines 319-354): the `catch` branch logs and
returns. -/
def handleMessage (pf : Platform) (s : State) (event : MessageEvent) :
    State × Completion :=
  match handleMessageTry pf s event with
  | (s, none) => (s, .returned)
  | (s, some _) =>
    ({ s with log := s.log ++ [Effect.consoleError "Error handling message:"] },
      .returned)

/-- The `'ended'` event of the audio element: first the listener installed
by `initializeEventListeners` (lines 51-55), then every `{once: true}`
listener of `handleMessage` (lines 341-348), each removed as it runs. -/
def audioEnded (pf : Platform) (s : State) : State :=
  let s := startRecording s
  let pendingListeners := s.endedOnce
  let s := { s with endedOnce := 0 }
  (fun t => (endSession pf t).1)^[pendingListeners] s

/-! ## Runs -/

/-- The operations that drive the controller. -/
inductive Op
  | startSession (env : StartEnv)
  | startRecording
  | stopRecording
  | handleMessage (event : MessageEvent)
  | audioEnded
  | timerTick
  | endSession

/-- The effect of one operation, taken as an atomic step. -/
def step (pf : Platform) (s : State) : Op → State
  | .startSession env => startSession env s
  | .startRecording => startRecording s
  | .stopRecording => (stopRecording pf s).1
  | .handleMessage event => (handleMessage pf s event).1
  | .audioEnded => audioEnded pf s
  | .timerTick => timerTick pf s
  | .endSession => (endSession pf s).1

/-- The state after a sequence of operations, from the constructor's state. -/
def run (pf : Platform) (ops : List Op) : State :=
  ops.foldl (step pf) constructor

/-! ## Observations -/

/-- Every audio recorder created so far. -/
def audioUnits (s : State) : List Recorder := s.recorder.toList ++ s.replaced

/-- The number of audio recorders in state `recording`. -/
def activeAudio (s : State) : Nat :=
  (audioUnits s).countP fun r => r.recording

/-- The number of `endSession()` calls so far. -/
def endSessionCalls (s : State) : Nat := s.log.count Effect.endSession

/-- Whether an effect is an upload under form field `kind`. -/
def Effect.isUpload (kind : String) : Effect → Bool
  | .upload _ k _ => k == kind
  | _ => false

/-- The number of uploads of kind `kind` so far. -/
def uploads (kind : String) (s : State) : Nat :=
  s.log.countP (Effect.isUpload kind)

/-- Whether an effect is a playback. -/
def Effect.isPlay : Effect → Bool
  | .play _ => true
  | _ => false

/-! ## Sample inputs -/

/-- A platform for examples: `JSON.parse` knows three replies, `atob`
decodes `"AAAA"` to three zero bytes, and RecordRTC does not call back on a
recorder that is already stopped. -/
def samplePlatform : Platform where
  JSON_parse := fun data =>
    if data = "\x7b\"text\":\"Interview complete, goodbye\",\"audio\":\"AAAA\"\x7d" then
      .value (.str "Interview complete, goodbye") (.str "AAAA")
    else if data = "\x7b\"audio\":\"AAAA\"\x7d" then .value .undefined (.str "AAAA")
    else if data = "\x7b\"text\":\"ok\",\"audio\":\"AAAA\"\x7d" then
      .value (.str "ok") (.str "AAAA")
    else .syntaxError
  atob := fun base64Data => if base64Data = "AAAA" then some [0, 0, 0] else none
  callbackOnRestop := false

/-- Every device is granted and the socket opens. -/
def allGranted : StartEnv where
  socketOpens := true
  getUserMedia := .ok ()
  getDisplayMedia := .ok ()
  getUserAudio := .ok ()

/-- The camera and microphone are refused; everything else is granted. -/
def cameraDenied : StartEnv where
  socketOpens := true
  getUserMedia := .error "Permission denied"
  getDisplayMedia := .ok ()
  getUserAudio := .ok ()

/-- Screen sharing is refused; everything else is granted. -/
def displayDenied : StartEnv where
  socketOpens := true
  getUserMedia := .ok ()
  getDisplayMedia := .error "Permission denied"
  getUserAudio := .ok ()

/-- The screen is shared, but the second microphone request (inside
`startScreenRecording`) is refused. -/
def userAudioDenied : StartEnv where
  socketOpens := true
  getUserMedia := .ok ()
  getDisplayMedia := .ok ()
  getUserAudio := .error "Permission denied"

/-- The reply `Interview complete, goodbye` with audio `AAAA`, as the socket
delivers it. -/
def markerReply : MessageEvent :=
  ⟨"\x7b\"text\":\"Interview complete, goodbye\",\"audio\":\"AAAA\"\x7d"⟩

/-! ## Invariants -/

/-- The four fields the audio-turn discipline is about. -/
def audioView (s : State) : Bool × Bool × Option Recorder × List Recorder :=
  (s.isRecording, s.isSessionActive, s.recorder, s.replaced)

/-- No turn is open and no audio recorder is recording. -/
def Quiet (s : State) : Prop :=
  s.isRecording = false ∧ ∀ x ∈ audioUnits s, x.recording = false

/-- The audio-turn invariant: while a turn is open the session is active and
`this.recorder` is the only audio recorder that records; otherwise none does. -/
def Inv (s : State) : Prop :=
  (s.isRecording = true →
    s.isSessionActive = true ∧
      ∃ r, s.recorder = some r ∧ r.recording = true ∧
        ∀ x ∈ s.replaced, x.recording = false) ∧
  (s.isRecording = false → ∀ x ∈ audioUnits s, x.recording = false)

/-- What the countdown and the end-of-session listeners are about: the
number of `endSession()` calls, the pending `{once: true}` listeners and the
installed interval. -/
def controlView (s : State) : Nat × Nat × Option Int :=
  (endSessionCalls s, s.endedOnce, s.sessionTimer)

/-! ## Chunking in base64ToBlob -/

theorem byteNumbers_eq (sl : List Nat) : byteNumbers sl = sl := by
  apply List.ext_getElem
  · simp [byteNumbers]
  · intro n h₁ h₂
    simp [byteNumbers, charCodeAt, List.getElem?_eq_getElem h₂]

theorem Uint8Array_eq (ns : List Nat) (h : ∀ c ∈ ns, c < 256) :
    Uint8Array ns = ns := by
  induction ns with
  | nil => rfl
  | cons a t ih =>
    have ha : a % 256 = a := Nat.mod_eq_of_lt (h a (by simp))
    have ht : Uint8Array t = t := ih fun c hc => h c (by simp [hc])
    simp only [Uint8Array, List.map_cons] at ht ⊢
    rw [ha, ht]

theorem length_slice (s : List Nat) (a b : Nat) :
    (slice s a b).length = min b s.length - a := by
  simp [slice]

theorem length_chunkAt (s : List Nat) (offset : Nat) :
    (chunkAt s offset).length = min (offset + 512) s.length - offset := by
  simp [chunkAt, Uint8Array, byteNumbers_eq, length_slice]

theorem chunkAt_eq_slice (s : List Nat) (h : ∀ c ∈ s, c < 256) (offset : Nat) :
    chunkAt s offset = slice s offset (offset + 512) := by
  unfold chunkAt
  rw [byteNumbers_eq]
  apply Uint8Array_eq
  intro c hc
  exact h c (List.mem_of_mem_take (List.mem_of_mem_drop hc))

/-- With enough fuel the loop appends the chunks at `offset`, `offset + 512`,
and so on, one per started block of 512 characters. -/
theorem chunkLoop_eq (s : List Nat) :
    ∀ (fuel offset : Nat) (acc : List (List Nat)), s.length ≤ offset + fuel →
      chunkLoop s fuel offset acc =
        acc ++ (List.range ((s.length - offset + 511) / 512)).map
          fun j => chunkAt s (offset + 512 * j) := by
  intro fuel
  induction fuel with
  | zero =>
    intro offset acc h
    have hk : (s.length - offset + 511) / 512 = 0 := by omega
    simp [chunkLoop, hk]
  | succ fuel ih =>
    intro offset acc h
    unfold chunkLoop
    split
    · rename_i hlt
      rw [ih (offset + 512) _ (by omega)]
      have hk : (s.length - offset + 511) / 512
          = (s.length - (offset + 512) + 511) / 512 + 1 := by omega
      rw [hk, List.range_succ_eq_map]
      simp only [List.map_cons, List.map_map, List.append_assoc, List.singleton_append,
        Nat.mul_zero, Nat.add_zero]
      congr 2
      apply List.map_congr_left
      intro j _
      simp only [Function.comp, chunkAt]
      have : offset + 512 * j.succ = offset + 512 + 512 * j := by omega
      rw [this]
    · rename_i hge
      have hk : (s.length - offset + 511) / 512 = 0 := by omega
      simp [hk]

/-- The closed form of the byte arrays. -/
theorem byteArraysOf_eq (s : List Nat) :
    byteArraysOf s =
      (List.range ((s.length + 511) / 512)).map fun j => chunkAt s (512 * j) := by
  unfold byteArraysOf
  rw [chunkLoop_eq s s.length 0 [] (by omega)]
  simp

theorem flatten_slices (s : List Nat) (n : Nat) :
    ((List.range n).map fun j => slice s (512 * j) (512 * j + 512)).flatten
      = s.take (512 * n) := by
  induction n with
  | zero => simp
  | succ n ih =>
    rw [List.range_succ, List.map_append, List.flatten_append, ih]
    simp only [List.map_cons, List.map_nil, List.flatten_cons, List.flatten_nil,
      List.append_nil, slice]
    have h1 : 512 * (n + 1) = 512 * n + 512 := by omega
    rw [h1]
    have h2 : s.take (512 * n) = (s.take (512 * n + 512)).take (512 * n) := by
      rw [List.take_take]; congr 1; omega
    rw [h2, List.take_append_drop]

/-- C10. For a decoded string `s` (character codes below 256, as `atob`
returns them) the byte arrays built by `base64ToBlob`, concatenated in order,
are exactly the character codes of `s`; there are `ceil(len(s)/512)` arrays,
every array but the last holds 512 bytes, the last holds between 1 and 512,
and the empty string yields no array. -/
theorem base64ToBlob_chunks_preserve_bytes (pf : Platform)
    (base64Data contentType : String) (s : List Nat)
    (hdecoded : pf.atob base64Data = some s) (hcodes : ∀ c ∈ s, c < 256) :
    ∃ byteArrays : List (List Nat),
      base64ToBlob pf base64Data contentType = some (Blob.bytes byteArrays contentType) ∧
      byteArrays = byteArraysOf s ∧
      byteArrays.flatten = s ∧
      byteArrays.length = (s.length + 511) / 512 ∧
      (∀ i chunk, byteArrays[i]? = some chunk → i + 1 < byteArrays.length →
        chunk.length = 512) ∧
      (∀ chunk, byteArrays.getLast? = some chunk →
        1 ≤ chunk.length ∧ chunk.length ≤ 512) ∧
      (s = [] → byteArrays = []) := by
  refine ⟨byteArraysOf s, by simp [base64ToBlob, hdecoded], rfl, ?_, ?_, ?_, ?_, ?_⟩
  · rw [byteArraysOf_eq]
    have hmap : ((List.range ((s.length + 511) / 512)).map fun j => chunkAt s (512 * j))
        = (List.range ((s.length + 511) / 512)).map
            fun j => slice s (512 * j) (512 * j + 512) :=
      List.map_congr_left fun j _ => chunkAt_eq_slice s hcodes (512 * j)
    rw [hmap, flatten_slices]
    exact List.take_of_length_le (by omega)
  · simp [byteArraysOf_eq]
  · intro i chunk hget hlt
    rw [byteArraysOf_eq] at hget hlt
    simp only [List.length_map, List.length_range] at hlt
    have hi : i < (s.length + 511) / 512 := by omega
    simp only [List.getElem?_map, List.getElem?_range hi, Option.map_some',
      Option.some.injEq] at hget
    rw [← hget, length_chunkAt]
    omega
  · intro chunk hlast
    rw [byteArraysOf_eq, List.getLast?_map, List.getLast?_range] at hlast
    split at hlast
    · simp at hlast
    · rename_i hne
      simp only [Option.map_some', Option.some.injEq] at hlast
      rw [← hlast, length_chunkAt]
      omega
  · intro hs
    subst hs
    rfl

/-- C10 at the three zero bytes that `"AAAA"` decodes to. -/
theorem base64ToBlob_chunks_preserve_bytes_witness :
    ∃ byteArrays : List (List Nat),
      base64ToBlob samplePlatform "AAAA" "audio/mp3"
        = some (Blob.bytes byteArrays "audio/mp3") ∧
      byteArrays = byteArraysOf [0, 0, 0] ∧
      byteArrays.flatten = [0, 0, 0] ∧
      byteArrays.length = (([0, 0, 0] : List Nat).length + 511) / 512 ∧
      (∀ i chunk, byteArrays[i]? = some chunk → i + 1 < byteArrays.length →
        chunk.length = 512) ∧
      (∀ chunk, byteArrays.getLast? = some chunk →
        1 ≤ chunk.length ∧ chunk.length ≤ 512) ∧
      (([0, 0, 0] : List Nat) = [] → byteArrays = []) :=
  base64ToBlob_chunks_preserve_bytes samplePlatform "AAAA" "audio/mp3" [0, 0, 0]
    (by decide) (by decide)

/-! ## The audio-turn invariant -/

theorem Inv_of_Quiet {s : State} (h : Quiet s) : Inv s := by
  refine ⟨fun hr => ?_, fun _ => h.2⟩
  rw [h.1] at hr
  exact absurd hr (by decide)

theorem Inv_of_audioView {s t : State} (hv : audioView t = audioView s) (h : Inv s) :
    Inv t := by
  simp only [audioView, Prod.mk.injEq] at hv
  obtain ⟨h1, h2, h3, h4⟩ := hv
  simpa only [Inv, audioUnits, h1, h2, h3, h4] using h

theorem Quiet_of_audioView {s t : State}
    (hr : t.isRecording = false) (hrec : t.recorder = s.recorder)
    (hrep : t.replaced = s.replaced) (h : Quiet s) : Quiet t := by
  refine ⟨hr, ?_⟩
  have := h.2
  simpa only [audioUnits, hrec, hrep] using this

theorem Inv_constructor : Inv constructor := by
  refine ⟨fun h => ?_, fun _ x hx => ?_⟩
  · exact absurd h (by decide)
  · simp [audioUnits, constructor] at hx

theorem Inv_startRecording {s : State} (h : Inv s) : Inv (startRecording s) := by
  unfold startRecording
  split
  · exact h
  · rename_i hg
    simp only [Bool.or_eq_true, Bool.not_eq_true', not_or, Bool.not_eq_false,
      Bool.not_eq_true] at hg
    obtain ⟨hact, hrec⟩ := hg
    have hq := h.2 hrec
    refine ⟨fun _ => ⟨?_, ?_⟩, fun hf => ?_⟩
    · simpa [updateStatus] using hact
    · refine ⟨_, rfl, rfl, ?_⟩
      intro x hx
      exact hq x (by simpa [audioUnits, updateStatus] using hx)
    · simp [updateStatus] at hf

theorem Quiet_stopRecording (pf : Platform) {s : State} (h : Inv s) :
    Quiet (stopRecording pf s).1 := by
  unfold stopRecording
  split
  · rename_i hr
    simp only [Bool.not_eq_true'] at hr
    exact ⟨hr, h.2 hr⟩
  · rename_i hr
    simp only [Bool.not_eq_true', Bool.not_eq_false] at hr
    obtain ⟨_, r, hrec, _, hrep⟩ := h.1 hr
    simp only [hrec, Recorder.stopRecording]
    split
    · unfold sendAudioToServer
      cases s.socket with
      | none => simpa [Quiet, audioUnits] using hrep
      | some rs =>
        by_cases ho : rs = ReadyState.OPEN
        · simpa [ho, Quiet, audioUnits, updateStatus] using hrep
        · simpa [ho, Quiet, audioUnits, updateStatus] using hrep
    · simpa [Quiet, audioUnits] using hrep

theorem audio_stopScreenRecording (pf : Platform) (s : State) :
    audioView (stopScreenRecording pf s).1 = audioView s := by
  unfold stopScreenRecording
  split
  · rfl
  · cases s.screenRecorder with
    | none => rfl
    | some r =>
      simp only [Recorder.stopRecording]
      split <;> rfl

theorem Quiet_endSessionReset {s : State} (h : Quiet s) : Quiet (endSessionReset s).1 := by
  unfold endSessionReset
  cases hs : s.socket <;> simpa [Quiet, audioUnits] using h.2

theorem Quiet_endSessionCatch {s : State} (message : String) (h : Quiet s) :
    Quiet (endSessionCatch s message).1 := by
  simpa [endSessionCatch, Quiet, audioUnits, updateStatus] using h

theorem audio_endSessionVideo (pf : Platform) (s : State) :
    audioView (endSessionVideo pf s) = audioView s := by
  unfold endSessionVideo
  cases s.videoRecorder with
  | none => rfl
  | some r =>
    simp only [Recorder.stopRecording]
    split <;> rfl

theorem Quiet_of_audioView_eq {s t : State} (hv : audioView t = audioView s)
    (h : Quiet s) : Quiet t := by
  simp only [audioView, Prod.mk.injEq] at hv
  exact Quiet_of_audioView (hv.1.trans h.1) hv.2.2.1 hv.2.2.2 h

theorem Quiet_endSessionCaptures (pf : Platform) {s : State} (h : Quiet s) :
    Quiet (endSessionCaptures pf s).1 := by
  unfold endSessionCaptures
  have h1 : Quiet (endSessionVideo pf { s with log := s.log ++ [Effect.pause] }) :=
    Quiet_of_audioView_eq (audio_endSessionVideo pf _) (Quiet_of_audioView_eq rfl h)
  have h2 := Quiet_of_audioView_eq (audio_stopScreenRecording pf _) h1
  simp only
  split
  · split
    · rename_i heq
      rw [heq] at h2
      exact Quiet_endSessionReset h2
    · rename_i heq
      rw [heq] at h2
      exact Quiet_endSessionCatch _ h2
    · rename_i heq
      rw [heq] at h2
      exact h2
  · exact Quiet_endSessionReset h1

theorem Quiet_endSession (pf : Platform) {s : State} (h : Inv s) :
    Quiet (endSession pf s).1 := by
  unfold endSession
  have hi : Inv (updateStatus { s with log := s.log ++ [Effect.endSession] } "Session ended") :=
    Inv_of_audioView rfl h
  have hi2 : Inv { (updateStatus { s with log := s.log ++ [Effect.endSession] }
      "Session ended") with sessionTimer := none } := Inv_of_audioView rfl hi
  have hq := Quiet_stopRecording pf hi2
  simp only
  split
  · split
    · rename_i heq
      rw [heq] at hq
      exact Quiet_endSessionCaptures pf hq
    · rename_i heq
      rw [heq] at hq
      exact Quiet_endSessionCatch _ hq
    · rename_i heq
      rw [heq] at hq
      exact hq
  · rename_i hr
    simp only [Bool.not_eq_true] at hr
    exact Quiet_endSessionCaptures pf ⟨hr, hi2.2 hr⟩

theorem Inv_endSession (pf : Platform) {s : State} (h : Inv s) :
    Inv (endSession pf s).1 :=
  Inv_of_Quiet (Quiet_endSession pf h)

theorem Inv_iterate_endSession (pf : Platform) (n : Nat) {s : State} (h : Inv s) :
    Inv ((fun t => (endSession pf t).1)^[n] s) := by
  induction n generalizing s with
  | zero => exact h
  | succ n ih =>
    rw [Function.iterate_succ_apply]
    exact ih (Inv_endSession pf h)

theorem Inv_timerTick (pf : Platform) {s : State} (h : Inv s) : Inv (timerTick pf s) := by
  unfold timerTick
  cases s.sessionTimer with
  | none => exact h
  | some r =>
    simp only
    split
    · exact Inv_endSession pf (Inv_of_audioView rfl h)
    · exact Inv_of_audioView rfl h

theorem audio_handleMessageTry (pf : Platform) (s : State) (event : MessageEvent) :
    audioView (handleMessageTry pf s event).1 = audioView s := by
  unfold handleMessageTry
  cases pf.JSON_parse event.data with
  | syntaxError => rfl
  | null => rfl
  | value text audio =>
    simp only
    by_cases ht : text.truthy = true <;> by_cases ha : audio.truthy = true <;>
      cases hb : base64ToBlob pf audio.asString "audio/mp3" <;>
      cases text <;> simp only [ht, ha, hb, if_true, if_false, Bool.false_eq_true] <;>
      (try split) <;> rfl

theorem audio_handleMessage (pf : Platform) (s : State) (event : MessageEvent) :
    audioView (handleMessage pf s event).1 = audioView s := by
  have h := audio_handleMessageTry pf s event
  unfold handleMessage
  split
  · rename_i heq
    rw [heq] at h
    exact h
  · rename_i heq
    rw [heq] at h
    exact h

theorem Inv_audioEnded (pf : Platform) {s : State} (h : Inv s) : Inv (audioEnded pf s) := by
  unfold audioEnded
  exact Inv_iterate_endSession pf _ (Inv_of_audioView rfl (Inv_startRecording h))

theorem audio_startScreenRecording (env : StartEnv) (s : State) :
    audioView (startScreenRecording env s) = audioView s := by
  unfold startScreenRecording
  cases env.getDisplayMedia with
  | error m => rfl
  | ok u =>
    cases env.getUserAudio with
    | error m => rfl
    | ok v => rfl

theorem Inv_activate {s t : State} (hr : t.isRecording = s.isRecording)
    (ha : t.isSessionActive = true) (hrec : t.recorder = s.recorder)
    (hrep : t.replaced = s.replaced) (h : Inv s) : Inv t := by
  refine ⟨fun hrt => ⟨ha, ?_⟩, fun hrf => ?_⟩
  · rw [hr] at hrt
    simpa only [hrec, hrep] using (h.1 hrt).2
  · rw [hr] at hrf
    simpa only [audioUnits, hrec, hrep] using h.2 hrf

theorem Inv_startSession (env : StartEnv) {s : State} (h : Inv s) :
    Inv (startSession env s) := by
  unfold startSession
  split
  · exact Inv_of_audioView rfl h
  · simp only [initializeMediaStream]
    cases env.getUserMedia with
    | error m => exact Inv_of_audioView rfl h
    | ok u =>
      simp only
      apply Inv_startRecording
      have hv := audio_startScreenRecording env
        { s with socket := some ReadyState.OPEN, stream := some { live := true },
                 videoRecorder := some { kind := .video, recording := true, stopCalls := 0 } }
      simp only [audioView, Prod.mk.injEq] at hv
      exact Inv_activate hv.1 rfl hv.2.2.1 hv.2.2.2 h

theorem Inv_step (pf : Platform) (op : Op) {s : State} (h : Inv s) : Inv (step pf s op) := by
  cases op with
  | startSession env => exact Inv_startSession env h
  | startRecording => exact Inv_startRecording h
  | stopRecording => exact Inv_of_Quiet (Quiet_stopRecording pf h)
  | handleMessage event => exact Inv_of_audioView (audio_handleMessage pf s event) h
  | audioEnded => exact Inv_audioEnded pf h
  | timerTick => exact Inv_timerTick pf h
  | endSession => exact Inv_endSession pf h

theorem Inv_foldl (pf : Platform) (ops : List Op) :
    ∀ {s : State}, Inv s → Inv (ops.foldl (step pf) s) := by
  induction ops with
  | nil => exact fun h => h
  | cons op ops ih => exact fun h => ih (Inv_step pf op h)

theorem Inv_run (pf : Platform) (ops : List Op) : Inv (run pf ops) :=
  Inv_foldl pf ops Inv_constructor

/-! ## Audio turns -/

theorem startRecording_of_guard {s : State}
    (hguard : s.isSessionActive = false ∨ s.isRecording = true) :
    startRecording s = s := by
  unfold startRecording
  rcases hguard with h | h <;> simp [h]

theorem startRecording_opens {s : State} (hactive : s.isSessionActive = true)
    (hidle : s.isRecording = false) :
    startRecording s =
      { s with
        isRecording := true
        replaced := s.recorder.toList ++ s.replaced
        recorder := some { kind := .audio, recording := true, stopCalls := 0 }
        status := "Recording..." } := by
  unfold startRecording
  simp [hactive, hidle, updateStatus]

theorem iterate_startRecording {s : State} (hactive : s.isSessionActive = true)
    (hidle : s.isRecording = false) (k : Nat) :
    startRecording^[k + 1] s = startRecording s := by
  induction k with
  | zero => rfl
  | succ k ih =>
    rw [Function.iterate_succ_apply', ih]
    apply startRecording_of_guard
    right
    rw [startRecording_opens hactive hidle]

/-- C9. In every state reached from the constructor's state by any sequence
of startSession, startRecording, stopRecording, handleMessage, the audio
'ended' handler, a timer tick and endSession, `isRecording` implies
`isSessionActive`. -/
theorem recording_implies_session_active (pf : Platform) (ops : List Op)
    (hrecording : (run pf ops).isRecording = true) :
    (run pf ops).isSessionActive = true :=
  ((Inv_run pf ops).1 hrecording).1

/-- C9 after a successful `startSession`, which opens the first turn. -/
theorem recording_implies_session_active_witness :
    (run samplePlatform [Op.startSession allGranted]).isRecording = true ∧
    (run samplePlatform [Op.startSession allGranted]).isSessionActive = true :=
  ⟨by decide,
    recording_implies_session_active samplePlatform [Op.startSession allGranted]
      (by decide)⟩

theorem iterate_startRecording_open {s : State} (hopen : s.isRecording = true) (k : Nat) :
    startRecording^[k] s = s := by
  induction k with
  | zero => rfl
  | succ k ih => rw [Function.iterate_succ_apply', ih, startRecording_of_guard (Or.inr hopen)]

theorem activeAudio_of_open {s : State} (h : Inv s) (hopen : s.isRecording = true) :
    activeAudio s = 1 := by
  obtain ⟨_, r, hrec, hr, hrep⟩ := h.1 hopen
  have hzero : List.countP (fun r => r.recording) s.replaced = 0 := by
    rw [List.countP_eq_zero]
    intro x hx
    simp [hrep x hx]
  simp only [activeAudio, audioUnits, hrec, Option.toList_some, List.singleton_append,
    List.countP_cons, hzero, hr]
  rfl

/-- C2. `startRecording` is a no-op in every state where the session is
inactive or a turn is already recording: the whole state, audio recorders
included, is unchanged. Hence, from any reachable state with an active session
and no open turn, any number `k + 1` of `startRecording` calls in a row leaves
exactly one more audio recorder than before, and exactly one recording; and in
any reachable state with a turn open, exactly one audio recorder is recording
and any number of `startRecording` calls changes nothing. -/
theorem startRecording_guarded_noop :
    (∀ s : State, s.isSessionActive = false ∨ s.isRecording = true →
      startRecording s = s) ∧
    (∀ (pf : Platform) (ops : List Op) (k : Nat),
      (run pf ops).isSessionActive = true → (run pf ops).isRecording = false →
        startRecording^[k + 1] (run pf ops) = startRecording (run pf ops) ∧
        (audioUnits (startRecording^[k + 1] (run pf ops))).length
          = (audioUnits (run pf ops)).length + 1 ∧
        activeAudio (startRecording^[k + 1] (run pf ops)) = 1) ∧
    (∀ (pf : Platform) (ops : List Op) (k : Nat),
      (run pf ops).isRecording = true →
        startRecording^[k] (run pf ops) = run pf ops ∧
        activeAudio (run pf ops) = 1) := by
  refine ⟨fun s h => startRecording_of_guard h, ?_, fun pf ops k hopen =>
    ⟨iterate_startRecording_open hopen k, activeAudio_of_open (Inv_run pf ops) hopen⟩⟩
  intro pf ops k hactive hidle
  have hquiet := (Inv_run pf ops).2 hidle
  rw [iterate_startRecording hactive hidle k, startRecording_opens hactive hidle]
  refine ⟨rfl, ?_, ?_⟩
  · simp only [audioUnits, Option.toList, List.length_append, List.length_cons,
      List.length_nil]
    cases (run pf ops).recorder <;> simp <;> omega
  · have hzero : List.countP (fun r => r.recording)
        ((run pf ops).recorder.toList ++ (run pf ops).replaced) = 0 := by
      rw [List.countP_eq_zero]
      intro x hx
      have := hquiet x (by simpa [audioUnits] using hx)
      simp [this]
    simp only [activeAudio, audioUnits, List.singleton_append, Option.toList_some,
      List.countP_cons, hzero]
    rfl

/-- C2 at concrete states: the constructor's state (session inactive), and
three calls in a row after a started session whose first turn was stopped. -/
theorem startRecording_guarded_noop_witness :
    startRecording constructor = constructor ∧
    (audioUnits (startRecording^[3]
        (run samplePlatform [Op.startSession allGranted, Op.stopRecording]))).length
      = (audioUnits
          (run samplePlatform [Op.startSession allGranted, Op.stopRecording])).length + 1 ∧
    activeAudio (startRecording^[3]
        (run samplePlatform [Op.startSession allGranted, Op.stopRecording])) = 1 :=
  ⟨startRecording_guarded_noop.1 constructor (Or.inl rfl),
    (startRecording_guarded_noop.2.1 samplePlatform
      [Op.startSession allGranted, Op.stopRecording] 2 (by decide) (by decide)).2⟩

/-! ## Calls of endSession -/

theorem control_sendAudioToServer (s : State) (blob : Blob) :
    controlView (sendAudioToServer s blob).1 = controlView s := by
  unfold sendAudioToServer
  cases s.socket with
  | none => rfl
  | some rs =>
    by_cases ho : rs = ReadyState.OPEN <;>
      simp [ho, controlView, endSessionCalls, updateStatus, List.count_append]

theorem control_stopRecording (pf : Platform) (s : State) :
    controlView (stopRecording pf s).1 = controlView s := by
  unfold stopRecording
  split
  · rfl
  · cases s.recorder with
    | none => rfl
    | some r =>
      simp only [Recorder.stopRecording]
      split
      · have h := control_sendAudioToServer
          { s with isRecording := false,
                   recorder := some { r with recording := false, stopCalls := r.stopCalls + 1 } }
          (Blob.recorded { r with recording := false, stopCalls := r.stopCalls + 1 })
        split
        · rename_i heq
          rw [heq] at h
          exact h
        · rename_i _ heq
          rw [heq] at h
          exact h
      · rfl

theorem control_stopScreenRecording (pf : Platform) (s : State) :
    controlView (stopScreenRecording pf s).1 = controlView s := by
  unfold stopScreenRecording
  split
  · rfl
  · cases s.screenRecorder with
    | none => rfl
    | some r =>
      simp only [Recorder.stopRecording]
      split
      · simp [controlView, endSessionCalls, List.count_append]
      · rfl

theorem control_endSessionVideo (pf : Platform) (s : State) :
    controlView (endSessionVideo pf s) = controlView s := by
  unfold endSessionVideo
  cases s.videoRecorder with
  | none => rfl
  | some r =>
    simp only [Recorder.stopRecording]
    split
    · simp [controlView, endSessionCalls, List.count_append]
    · rfl

theorem control_endSessionReset (s : State) :
    controlView (endSessionReset s).1 = controlView s := by
  unfold endSessionReset
  cases s.socket <;> simp [controlView, endSessionCalls, List.count_append]

theorem control_endSessionCatch (s : State) (message : String) :
    controlView (endSessionCatch s message).1 = controlView s := by
  simp [endSessionCatch, controlView, endSessionCalls, updateStatus, List.count_append]

theorem control_endSessionCaptures (pf : Platform) (s : State) :
    controlView (endSessionCaptures pf s).1 = controlView s := by
  unfold endSessionCaptures
  have h1 : controlView (endSessionVideo pf { s with log := s.log ++ [Effect.pause] })
      = controlView s := by
    rw [control_endSessionVideo]
    simp [controlView, endSessionCalls, List.count_append]
  have h2 := control_stopScreenRecording pf
    (endSessionVideo pf { s with log := s.log ++ [Effect.pause] })
  simp only
  split
  · split
    · rename_i heq
      rw [heq] at h2
      rw [control_endSessionReset, h2, h1]
    · rename_i heq
      rw [heq] at h2
      rw [control_endSessionCatch, h2, h1]
    · rename_i heq
      rw [heq] at h2
      rw [h2, h1]
  · rw [control_endSessionReset, h1]

/-- Every `endSession()` call is logged once, clears the interval, and leaves
the pending `'ended'` listeners alone. -/
theorem control_endSession (pf : Platform) (s : State) :
    controlView (endSession pf s).1 = (endSessionCalls s + 1, s.endedOnce, none) := by
  unfold endSession
  have h0 : controlView { (updateStatus { s with log := s.log ++ [Effect.endSession] }
      "Session ended") with sessionTimer := none }
      = (endSessionCalls s + 1, s.endedOnce, none) := by
    simp [controlView, endSessionCalls, updateStatus, List.count_append]
  have h1 := control_stopRecording pf { (updateStatus
    { s with log := s.log ++ [Effect.endSession] } "Session ended") with sessionTimer := none }
  simp only
  split
  · split
    · rename_i heq
      rw [heq] at h1
      rw [control_endSessionCaptures, h1, h0]
    · rename_i heq
      rw [heq] at h1
      rw [control_endSessionCatch, h1, h0]
    · rename_i heq
      rw [heq] at h1
      rw [h1, h0]
  · rw [control_endSessionCaptures, h0]

theorem control_iterate_endSession (pf : Platform) (n : Nat) (s : State) :
    endSessionCalls ((fun t => (endSession pf t).1)^[n] s) = endSessionCalls s + n ∧
    ((fun t => (endSession pf t).1)^[n] s).endedOnce = s.endedOnce := by
  induction n generalizing s with
  | zero => exact ⟨rfl, rfl⟩
  | succ n ih =>
    rw [Function.iterate_succ_apply]
    have h := control_endSession pf s
    simp only [controlView, Prod.mk.injEq] at h
    obtain ⟨h1, h2⟩ := ih (endSession pf s).1
    rw [h1, h2, h.1, h.2.1]
    exact ⟨by omega, rfl⟩

/-! ## Countdown -/

theorem timerTick_running (pf : Platform) {s : State} {r : Int}
    (ht : s.sessionTimer = some r) (hr : 1 ≤ r) :
    controlView (timerTick pf s) = (endSessionCalls s, s.endedOnce, some (r - 1)) := by
  unfold timerTick
  rw [ht]
  have hneg : ¬ (r - 1 < 0) := by omega
  simp only [hneg, if_false]
  rfl

theorem timerTick_expired (pf : Platform) {s : State} {r : Int}
    (ht : s.sessionTimer = some r) (hr : r ≤ 0) :
    controlView (timerTick pf s) = (endSessionCalls s + 1, s.endedOnce, none) := by
  unfold timerTick
  rw [ht]
  have hneg : r - 1 < 0 := by omega
  simp only [hneg, if_true]
  rw [control_endSession]
  rfl

theorem timerTick_cleared (pf : Platform) {s : State} (ht : s.sessionTimer = none) :
    timerTick pf s = s := by
  unfold timerTick
  rw [ht]

theorem ticks_running (pf : Platform) (s : State) (N : Nat) :
    ∀ k : Nat, k ≤ N →
      controlView ((timerTick pf)^[k] (startTimer (N : Int) s))
        = (endSessionCalls s, s.endedOnce, some ((N : Int) - k)) := by
  intro k
  induction k with
  | zero =>
    intro _
    simp [controlView, startTimer, endSessionCalls]
  | succ k ih =>
    intro hk
    have h := ih (by omega)
    rw [Function.iterate_succ_apply']
    simp only [controlView, Prod.mk.injEq] at h
    rw [timerTick_running pf h.2.2 (by omega), h.1, h.2.1]
    simp only [Prod.mk.injEq, Option.some.injEq, true_and]
    push_cast
    omega

theorem ticks_after_cleared (pf : Platform) {s : State} (ht : s.sessionTimer = none)
    (j : Nat) : (timerTick pf)^[j] s = s := by
  induction j with
  | zero => rfl
  | succ j ih => rw [Function.iterate_succ_apply', ih, timerTick_cleared pf ht]

/-- C4, amended. After `startTimer(N)` the interval callback does not call
`endSession` on any of the ticks 1..N: after tick `k ≤ N` the counter stands
at `N - k` (zero after tick N) and the interval is still installed. Tick
`N + 1` shows 00:00, takes the counter below zero, and calls `endSession`
exactly once, which clears the interval, so that no later tick occurs. -/
theorem countdown_forces_end_on_tick_after_zero (pf : Platform) (s : State) (N : Nat) :
    (∀ k : Nat, k ≤ N →
      endSessionCalls ((timerTick pf)^[k] (startTimer (N : Int) s)) = endSessionCalls s ∧
      ((timerTick pf)^[k] (startTimer (N : Int) s)).sessionTimer = some ((N : Int) - k)) ∧
    endSessionCalls ((timerTick pf)^[N + 1] (startTimer (N : Int) s))
      = endSessionCalls s + 1 ∧
    ((timerTick pf)^[N + 1] (startTimer (N : Int) s)).sessionTimer = none ∧
    (∀ j : Nat, (timerTick pf)^[j] ((timerTick pf)^[N + 1] (startTimer (N : Int) s))
      = (timerTick pf)^[N + 1] (startTimer (N : Int) s)) := by
  have hN := ticks_running pf s N N (le_refl N)
  simp only [controlView, Prod.mk.injEq] at hN
  have hfire : controlView ((timerTick pf)^[N + 1] (startTimer (N : Int) s))
      = (endSessionCalls s + 1, s.endedOnce, none) := by
    rw [Function.iterate_succ_apply', timerTick_expired pf hN.2.2 (by omega), hN.1, hN.2.1]
  simp only [controlView, Prod.mk.injEq] at hfire
  refine ⟨fun k hk => ?_, hfire.1, hfire.2.2, fun j => ticks_after_cleared pf hfire.2.2 j⟩
  have h := ticks_running pf s N k hk
  simp only [controlView, Prod.mk.injEq] at h
  exact ⟨h.1, h.2.2⟩

/-- C4 as stated fails at N = 1: tick number 1 leaves the counter at zero
without calling `endSession`; the call comes with tick number 2. -/
theorem countdown_not_forced_on_tick_N :
    endSessionCalls (timerTick samplePlatform (startTimer 1 constructor)) = 0 ∧
    (timerTick samplePlatform (startTimer 1 constructor)).sessionTimer = some 0 ∧
    endSessionCalls
      (timerTick samplePlatform (timerTick samplePlatform (startTimer 1 constructor))) = 1 := by
  decide

/-! ## Ending a session twice -/

/-- C1 at the state a successful `startSession` leaves. Two `endSession`
calls in a row both end in the idle flags, stop the audio and the screen
recorder once and upload `'screen'` once; but the second call stops the video
recorder again (`this.videoRecorder` is still set), so that recorder receives
two `stopRecording` calls, and `'video'` is uploaded a second time whenever
RecordRTC calls back on an already stopped recorder. -/
theorem endSession_twice_stops_video_twice (pf : Platform) :
    ((endSession pf (startSession allGranted constructor)).1.isSessionActive = false ∧
     (endSession pf (startSession allGranted constructor)).1.isRecording = false ∧
     (endSession pf (startSession allGranted constructor)).1.isScreenRecording = false) ∧
    ((endSession pf (endSession pf (startSession allGranted constructor)).1).1.isSessionActive
        = false ∧
     (endSession pf (endSession pf (startSession allGranted constructor)).1).1.isRecording
        = false ∧
     (endSession pf (endSession pf (startSession allGranted constructor)).1).1.isScreenRecording
        = false) ∧
    (endSession pf (endSession pf (startSession allGranted constructor)).1).1.recorder
      = some { kind := .audio, recording := false, stopCalls := 1 } ∧
    (endSession pf (endSession pf (startSession allGranted constructor)).1).1.screenRecorder
      = some { kind := .screen, recording := false, stopCalls := 1 } ∧
    (endSession pf (startSession allGranted constructor)).1.videoRecorder
      = some { kind := .video, recording := false, stopCalls := 1 } ∧
    (endSession pf (endSession pf (startSession allGranted constructor)).1).1.videoRecorder
      = some { kind := .video, recording := false, stopCalls := 2 } ∧
    uploads "screen" (endSession pf (endSession pf (startSession allGranted constructor)).1).1
      = 1 ∧
    uploads "video" (endSession pf (endSession pf (startSession allGranted constructor)).1).1
      = (if pf.callbackOnRestop then 2 else 1) := by
  obtain ⟨parse, decode, again⟩ := pf
  cases again <;>
    exact ⟨⟨rfl, rfl, rfl⟩, ⟨rfl, rfl, rfl⟩, rfl, rfl, rfl, rfl, rfl, rfl⟩

/-! ## Starting a session -/

/-- C3 on the code. When the socket opens and `getUserMedia` of
`initializeMediaStream` fails, `startSession` shows `Failed to start session:
Failed to access media devices: ...` and starts nothing: `isSessionActive`,
the interval and the audio turn are as before. When instead the display or
the microphone request inside `startScreenRecording` fails, the error is
caught there and `startSession` is not aborted: the session becomes active,
the countdown starts at 2100, the first audio turn opens, and the message
`Failed to start screen recording: ...` that `startScreenRecording` had set is
overwritten, the status `startSession` ends with being `Recording...` (or
`Session started - Recording automatically` when a turn was already open). -/
theorem startSession_aborts_on_camera_not_on_screen_failure (env : StartEnv) (s : State)
    (message : String) (hopen : env.socketOpens = true) :
    (env.getUserMedia = .error message →
      (startSession env s).isSessionActive = s.isSessionActive ∧
      (startSession env s).sessionTimer = s.sessionTimer ∧
      (startSession env s).isRecording = s.isRecording ∧
      (startSession env s).recorder = s.recorder ∧
      (startSession env s).replaced = s.replaced ∧
      (startSession env s).status
        = "Failed to start session: " ++ ("Failed to access media devices: " ++ message)) ∧
    (env.getUserMedia = .ok () →
      (env.getDisplayMedia = .error message ∨
        (env.getDisplayMedia = .ok () ∧ env.getUserAudio = .error message)) →
      (∀ u : State,
        (startScreenRecording env u).status
          = "Failed to start screen recording: " ++ message ∧
        (startScreenRecording env u).isScreenRecording = u.isScreenRecording) ∧
      (startSession env s).isSessionActive = true ∧
      (startSession env s).sessionTimer = some 2100 ∧
      (startSession env s).isScreenRecording = s.isScreenRecording ∧
      (s.isRecording = false →
        (startSession env s).isRecording = true ∧
        (startSession env s).recorder
          = some { kind := .audio, recording := true, stopCalls := 0 } ∧
        (startSession env s).status = "Recording...") ∧
      (s.isRecording = true →
        (startSession env s).status = "Session started - Recording automatically")) := by
  constructor
  · intro hcam
    simp [startSession, initializeMediaStream, hopen, hcam, startSessionCatch, updateStatus]
  · intro hcam hscreen
    have hshow : ∀ u : State,
        (startScreenRecording env u).status
          = "Failed to start screen recording: " ++ message ∧
        (startScreenRecording env u).isScreenRecording = u.isScreenRecording := by
      intro u
      rcases hscreen with h | ⟨h1, h2⟩
      · simp [startScreenRecording, h, startScreenRecordingCatch, updateStatus]
      · simp [startScreenRecording, h1, h2, startScreenRecordingCatch, updateStatus]
    refine ⟨hshow, ?_⟩
    rcases hscreen with h | ⟨h1, h2⟩
    · by_cases hr : s.isRecording = true <;>
        simp [startSession, initializeMediaStream, hopen, hcam, startScreenRecording, h,
          startScreenRecordingCatch, updateStatus, startTimer, startRecording, hr]
    · by_cases hr : s.isRecording = true <;>
        simp [startSession, initializeMediaStream, hopen, hcam, startScreenRecording, h1, h2,
          startScreenRecordingCatch, updateStatus, startTimer, startRecording, hr]

/-- C3 at concrete inputs. A refused camera aborts the start. A refused
screen share does not: the session is active, the countdown runs, a turn is
open and the status reads `Recording...`. With the screen shared and the
second microphone request refused the session starts as well, and since
`isScreenRecording` stayed false, `endSession` leaves the screen stream's
tracks running. -/
theorem startSession_aborts_on_camera_not_on_screen_failure_witness :
    ((startSession cameraDenied constructor).isSessionActive = false ∧
     (startSession cameraDenied constructor).sessionTimer = none ∧
     (startSession cameraDenied constructor).isRecording = false) ∧
    ((startSession displayDenied constructor).isSessionActive = true ∧
     (startSession displayDenied constructor).sessionTimer = some 2100 ∧
     (startSession displayDenied constructor).isScreenRecording = false ∧
     (startSession displayDenied constructor).isRecording = true ∧
     (startSession displayDenied constructor).status = "Recording...") ∧
    ((startSession userAudioDenied constructor).isSessionActive = true ∧
     (startSession userAudioDenied constructor).screenStream = some { live := true } ∧
     (endSession samplePlatform (startSession userAudioDenied constructor)).2
       = Completion.returned ∧
     (endSession samplePlatform (startSession userAudioDenied constructor)).1.screenStream
       = some { live := true }) :=
  ⟨let h := (startSession_aborts_on_camera_not_on_screen_failure cameraDenied constructor
      "Permission denied" rfl).1 rfl
   ⟨h.1, h.2.1, h.2.2.1⟩,
   let h := (startSession_aborts_on_camera_not_on_screen_failure displayDenied constructor
      "Permission denied" rfl).2 rfl (Or.inl rfl)
   ⟨h.2.1, h.2.2.1, h.2.2.2.1, (h.2.2.2.2.1 rfl).1, (h.2.2.2.2.1 rfl).2.2⟩,
   by decide⟩

/-! ## Sending a turn -/

/-- C8. With a socket in place, `sendAudioToServer` issues exactly one
`send` of the blob and leaves everything else, the status included, as it was
when `readyState` is OPEN; in every other ready state it issues no send, keeps
the blob nowhere, and only sets the status to the connection-lost message. -/
theorem sendAudioToServer_sends_iff_open (s : State) (audioBlob : Blob)
    (readyState : ReadyState) (hsocket : s.socket = some readyState) :
    (readyState = ReadyState.OPEN →
      sendAudioToServer s audioBlob
        = ({ s with log := s.log ++ [Effect.send audioBlob] }, Completion.returned)) ∧
    (readyState ≠ ReadyState.OPEN →
      sendAudioToServer s audioBlob
        = ({ s with status := "Connection lost. Please restart the session." },
            Completion.returned)) := by
  constructor
  · intro ho
    simp [sendAudioToServer, hsocket, ho]
  · intro hne
    simp [sendAudioToServer, hsocket, hne, updateStatus]

/-- C8 on the open socket of a started session and on a closed one. -/
theorem sendAudioToServer_sends_iff_open_witness :
    (sendAudioToServer (startSession allGranted constructor) (Blob.bytes [] "audio/wav")).1.log
      = (startSession allGranted constructor).log ++ [Effect.send (Blob.bytes [] "audio/wav")] ∧
    (sendAudioToServer { constructor with socket := some ReadyState.CLOSED }
        (Blob.bytes [] "audio/wav")).1
      = { constructor with
          socket := some ReadyState.CLOSED
          status := "Connection lost. Please restart the session." } :=
  ⟨by rw [(sendAudioToServer_sends_iff_open (startSession allGranted constructor)
        (Blob.bytes [] "audio/wav") ReadyState.OPEN rfl).1 rfl],
   by rw [(sendAudioToServer_sends_iff_open { constructor with socket := some ReadyState.CLOSED }
        (Blob.bytes [] "audio/wav") ReadyState.CLOSED rfl).2 (by decide)]⟩

/-! ## Replies -/

theorem control_startRecording (s : State) :
    controlView (startRecording s) = controlView s := by
  unfold startRecording
  split <;> rfl

theorem control_audioEnded (pf : Platform) (s : State) :
    endSessionCalls (audioEnded pf s) = endSessionCalls s + s.endedOnce ∧
    (audioEnded pf s).endedOnce = 0 := by
  have h := control_startRecording s
  simp only [controlView, Prod.mk.injEq] at h
  unfold audioEnded
  obtain ⟨h1, h2⟩ := control_iterate_endSession pf (startRecording s).endedOnce
    { startRecording s with endedOnce := 0 }
  simp only at h1 h2 ⊢
  rw [h1, h2, h.2.1]
  exact ⟨by rw [← h.1]; rfl, rfl⟩

/-- The state `handleMessage` reaches on a reply with marker text and a
decodable audio payload. -/
theorem handleMessage_marker (pf : Platform) (s : State) (event : MessageEvent)
    (text audio : String) (bytes : List Nat)
    (hparse : pf.JSON_parse event.data = .value (.str text) (.str audio))
    (hmarker : includes (toLowerCase text) "interview complete" = true)
    (haudio : audio ≠ "") (hdecode : pf.atob audio = some bytes) :
    handleMessage pf s event =
      ({ s with
          responseText := text
          log := s.log ++ [Effect.play (Blob.bytes (byteArraysOf bytes) "audio/mp3")]
          status := "Playing response..."
          endedOnce := s.endedOnce + 1 }, Completion.returned) := by
  have ht : text ≠ "" := by
    intro h
    subst h
    revert hmarker
    decide
  simp [handleMessage, handleMessageTry, hparse, JsValue.truthy, JsValue.asString,
    base64ToBlob, hdecode, haudio, hmarker, ht, playAudioResponse, updateStatus]

/-- C5, amended. On a reply whose text contains `interview complete` in any
letter case and whose audio payload decodes, `handleMessage` returns normally,
plays the audio, leaves `isSessionActive` as it was and calls `endSession` not
at all; it registers one more once-only `'ended'` listener. The next `'ended'`
event runs every pending listener: `endSession` is called once for this reply
and once for each such listener an earlier marker reply had left pending, so
exactly once when none was pending; a later `'ended'` event calls it no
more. -/
theorem handleMessage_defers_end_to_ended (pf : Platform) (s : State) (event : MessageEvent)
    (text audio : String) (bytes : List Nat)
    (hparse : pf.JSON_parse event.data = .value (.str text) (.str audio))
    (hmarker : includes (toLowerCase text) "interview complete" = true)
    (haudio : audio ≠ "") (hdecode : pf.atob audio = some bytes) :
    (handleMessage pf s event).2 = Completion.returned ∧
    (handleMessage pf s event).1.isSessionActive = s.isSessionActive ∧
    endSessionCalls (handleMessage pf s event).1 = endSessionCalls s ∧
    (handleMessage pf s event).1.log
      = s.log ++ [Effect.play (Blob.bytes (byteArraysOf bytes) "audio/mp3")] ∧
    (handleMessage pf s event).1.endedOnce = s.endedOnce + 1 ∧
    endSessionCalls (audioEnded pf (handleMessage pf s event).1)
      = endSessionCalls s + s.endedOnce + 1 ∧
    (s.endedOnce = 0 →
      endSessionCalls (audioEnded pf (handleMessage pf s event).1) = endSessionCalls s + 1) ∧
    endSessionCalls (audioEnded pf (audioEnded pf (handleMessage pf s event).1))
      = endSessionCalls (audioEnded pf (handleMessage pf s event).1) := by
  have hcalls : endSessionCalls (handleMessage pf s event).1 = endSessionCalls s := by
    rw [handleMessage_marker pf s event text audio bytes hparse hmarker haudio hdecode]
    simp [endSessionCalls, List.count_append]
  have hpending : (handleMessage pf s event).1.endedOnce = s.endedOnce + 1 := by
    rw [handleMessage_marker pf s event text audio bytes hparse hmarker haudio hdecode]
  have hended := control_audioEnded pf (handleMessage pf s event).1
  have hagain := control_audioEnded pf (audioEnded pf (handleMessage pf s event).1)
  have hfirst : endSessionCalls (audioEnded pf (handleMessage pf s event).1)
      = endSessionCalls s + s.endedOnce + 1 := by
    rw [hended.1, hcalls, hpending]
    omega
  refine ⟨?_, ?_, hcalls, ?_, hpending, hfirst, ?_, ?_⟩
  · rw [handleMessage_marker pf s event text audio bytes hparse hmarker haudio hdecode]
  · rw [handleMessage_marker pf s event text audio bytes hparse hmarker haudio hdecode]
  · rw [handleMessage_marker pf s event text audio bytes hparse hmarker haudio hdecode]
  · intro hfresh
    rw [hfirst, hfresh]
  · rw [hagain.1, hended.2]
    rfl

/-- C5 on the reply `Interview complete, goodbye` with audio `AAAA`, in the
state a successful `startSession` leaves. -/
theorem handleMessage_defers_end_to_ended_witness :
    (handleMessage samplePlatform (startSession allGranted constructor)
      ⟨"\x7b\"text\":\"Interview complete, goodbye\",\"audio\":\"AAAA\"\x7d"⟩).1.isSessionActive
      = true ∧
    endSessionCalls (handleMessage samplePlatform (startSession allGranted constructor)
      ⟨"\x7b\"text\":\"Interview complete, goodbye\",\"audio\":\"AAAA\"\x7d"⟩).1 = 0 ∧
    endSessionCalls (audioEnded samplePlatform
      (handleMessage samplePlatform (startSession allGranted constructor)
        ⟨"\x7b\"text\":\"Interview complete, goodbye\",\"audio\":\"AAAA\"\x7d"⟩).1) = 1 :=
  let h := handleMessage_defers_end_to_ended samplePlatform
    (startSession allGranted constructor)
    ⟨"\x7b\"text\":\"Interview complete, goodbye\",\"audio\":\"AAAA\"\x7d"⟩
    "Interview complete, goodbye" "AAAA" [0, 0, 0] (by decide) (by decide) (by decide)
    (by decide)
  ⟨h.2.1, h.2.2.1, h.2.2.2.2.2.2.1 rfl⟩

/-- C5 as stated fails when two marker replies arrive before the audio ends:
neither `handleMessage` calls `endSession`, and the next `'ended'` event calls
it twice, once for the listener of each reply. -/
theorem handleMessage_two_markers_end_twice :
    endSessionCalls (run samplePlatform
      [Op.startSession allGranted, Op.handleMessage markerReply,
        Op.handleMessage markerReply]) = 0 ∧
    (run samplePlatform
      [Op.startSession allGranted, Op.handleMessage markerReply,
        Op.handleMessage markerReply]).endedOnce = 2 ∧
    endSessionCalls (run samplePlatform
      [Op.startSession allGranted, Op.handleMessage markerReply,
        Op.handleMessage markerReply, Op.audioEnded]) = 2 := by
  decide

/-- C6. When `JSON.parse` rejects the event data, `handleMessage` returns
normally and the only trace is the `console.error` of its `catch` branch:
flags, recorders, socket, timer and listeners are as before, nothing is
played and `endSession` is not called. -/
theorem handleMessage_malformed_is_swallowed (pf : Platform) (s : State)
    (event : MessageEvent) (hbad : pf.JSON_parse event.data = Parsed.syntaxError) :
    handleMessage pf s event
      = ({ s with log := s.log ++ [Effect.consoleError "Error handling message:"] },
          Completion.returned) ∧
    endSessionCalls (handleMessage pf s event).1 = endSessionCalls s ∧
    (handleMessage pf s event).1.log.countP Effect.isPlay = s.log.countP Effect.isPlay ∧
    (handleMessage pf s event).1.endedOnce = s.endedOnce := by
  have h : handleMessage pf s event
      = ({ s with log := s.log ++ [Effect.consoleError "Error handling message:"] },
          Completion.returned) := by
    simp [handleMessage, handleMessageTry, hbad]
  refine ⟨h, ?_, ?_, ?_⟩
  · rw [h]
    simp [endSessionCalls, List.count_append]
  · rw [h]
    simp [List.countP_append, Effect.isPlay]
  · rw [h]

/-- C6 on the data `not json`, in the state a successful `startSession`
leaves. -/
theorem handleMessage_malformed_is_swallowed_witness :
    handleMessage samplePlatform (startSession allGranted constructor) ⟨"not json"⟩
      = ({ startSession allGranted constructor with
            log := (startSession allGranted constructor).log
              ++ [Effect.consoleError "Error handling message:"] },
          Completion.returned) :=
  (handleMessage_malformed_is_swallowed samplePlatform (startSession allGranted constructor)
    ⟨"not json"⟩ (by decide)).1

/-- C7 on the code. For a reply with a decodable audio payload and no text
field, the audio is decoded and played and no end-of-session listener is
registered, but the `try` block then ends in a TypeError at
`data.text.toLowerCase()`, and `handleMessage` finishes through its `catch`
branch. -/
theorem handleMessage_without_text_enters_catch (pf : Platform) (s : State)
    (event : MessageEvent) (audio : String) (bytes : List Nat)
    (hparse : pf.JSON_parse event.data = .value .undefined (.str audio))
    (haudio : audio ≠ "") (hdecode : pf.atob audio = some bytes) :
    handleMessageTry pf s event =
      ({ s with
          log := s.log ++ [Effect.play (Blob.bytes (byteArraysOf bytes) "audio/mp3")]
          status := "Playing response..." },
        some "TypeError: data.text.toLowerCase") ∧
    handleMessage pf s event =
      ({ s with
          log := s.log ++ [Effect.play (Blob.bytes (byteArraysOf bytes) "audio/mp3")]
            ++ [Effect.consoleError "Error handling message:"]
          status := "Playing response..." },
        Completion.returned) := by
  constructor <;>
    simp [handleMessage, handleMessageTry, hparse, JsValue.truthy, JsValue.asString,
      base64ToBlob, hdecode, haudio, playAudioResponse, updateStatus]

/-- C7 on the reply with audio `AAAA` and no text, in the constructor's state. -/
theorem handleMessage_without_text_enters_catch_witness :
    (handleMessageTry samplePlatform constructor ⟨"\x7b\"audio\":\"AAAA\"\x7d"⟩).2
      = some "TypeError: data.text.toLowerCase" :=
  by rw [(handleMessage_without_text_enters_catch samplePlatform constructor
    ⟨"\x7b\"audio\":\"AAAA\"\x7d"⟩ "AAAA" [0, 0, 0] (by decide) (by decide) (by decide)).1]

end VoiceChatApp
